import Mathlib

/-!
Verification development for the agent-cluster repository: a shallow embedding
of the tree-of-agents control plane (Agent base class, ChildAgent worker,
RootAgent coordinator) together with proofs about error-loop detection,
terminate/recreate recovery, dispatch context isolation, worker execution and
result aggregation.

Modelling conventions:
* TypeScript enums become Lean inductives; optional fields become Option.
* Wall-clock timestamps (createdAt, updatedAt, completedAt, Date fields) are
  external real-time data and are omitted from the state.
* The ReasoningOracle (LLM service) and its outcomes are passed in as explicit
  parameters: a dispatch carries the oracle's answer for the execute call and
  a function giving the oracle's self-test verdict.
* Persistence (Storage) is fire-and-forget in the source; its effects are not
  part of the in-memory state and are not modelled.
* Fresh uuidv4 identities are passed in as explicit id parameters.
* JavaScript truthiness on strings (empty string is falsy) is modelled
  explicitly where the source branches on it.
-/

/-- Agent status enum, from src/types (AgentStatus). -/
inductive AgentStatus : Type where
  | idle
  | pending
  | running
  | completed
  | failed
  | terminated
  | error_loop
  deriving DecidableEq, Repr

/-- Agent type enum, from src/types (AgentType). -/
inductive AgentType : Type where
  | root
  | child
  deriving DecidableEq, Repr

/-- Agent configuration (IAgentConfig), with constructor defaults applied.
The id, type and parentId components are kept on the node itself. -/
structure AgentConfig : Type where
  name : String
  maxRetries : Nat
  timeout : Nat
  enableMonitor : Bool
  description : String
  template : String
  deriving DecidableEq, Repr

/-- Defaults merged in by the Agent constructor (Agent.ts lines 50-57). -/
def defaultConfigOf (name : String) : AgentConfig :=
  { name := name, maxRetries := 3, timeout := 300000, enableMonitor := true,
    description := "", template := "ChildAgent" }

/-- Task context payload (ITask.context is an open record; these are the keys
the coordinator and worker actually read/write: instruction, step, totalSteps,
parentTaskId, originalContext). originalContext recursively holds a context. -/
inductive TaskContext : Type where
  | mk (instruction : Option String) (step : Option Nat) (totalSteps : Option Nat)
       (parentTaskId : Option String) (originalContext : Option TaskContext) : TaskContext

def TaskContext.instruction : TaskContext → Option String
  | .mk i _ _ _ _ => i

def TaskContext.step : TaskContext → Option Nat
  | .mk _ s _ _ _ => s

def TaskContext.totalSteps : TaskContext → Option Nat
  | .mk _ _ t _ _ => t

def TaskContext.parentTaskId : TaskContext → Option String
  | .mk _ _ _ p _ => p

def TaskContext.originalContext : TaskContext → Option TaskContext
  | .mk _ _ _ _ o => o

/-- A task (ITask), minus the Date fields. -/
structure AgentTask : Type where
  id : String
  description : String
  context : Option TaskContext
  parentTaskId : Option String

/-- Task output values (ITaskResult.output is any; the system produces worker
execution objects and the coordinator's aggregate object, and tests use plain
strings). -/
inductive Output : Type where
  | text (s : String) : Output
  | workerOut (agentId : String) (taskId : String) (instruction : String)
      (llmOutput : String) : Output
  | agg (aggregated : Bool) (subTaskCount : Nat) (successCount : Nat)
      (selfTestPassedCount : Nat) (outputs : List Output) (errors : List String) : Output

/-- Task result (ITaskResult), minus completedAt. -/
structure TaskResult : Type where
  taskId : String
  success : Bool
  output : Option Output
  error : Option String
  selfTestPassed : Option Bool

/-- Oracle self-test verdict (LLMService.selfTest return value). -/
structure SelfTestOutcome : Type where
  passed : Bool
  feedback : String

/-- The per-node fields of an Agent other than the children map
(Agent.ts fields; conversationHistory and taskState are never read by the
operations under study and are omitted; executionLog entries are
(action, result) pairs minus timestamps). -/
structure AgentBase : Type where
  id : String
  name : String
  type : AgentType
  parentId : Option String
  status : AgentStatus
  currentTask : Option AgentTask
  errorCount : Nat
  errorHistory : List String
  lastError : Option String
  executionLog : List (String × String)
  config : AgentConfig

/-- An agent node together with its owned children map.  The JS Map preserves
insertion order, so it is modelled as an id-keyed list in insertion order. -/
inductive AgentTree : Type where
  | node (base : AgentBase) (children : List AgentTree) : AgentTree

def AgentTree.base : AgentTree → AgentBase
  | .node b _ => b

def AgentTree.children : AgentTree → List AgentTree
  | .node _ cs => cs

/-- JavaScript truthiness for an optional string field (undefined and the
empty string are falsy). -/
def jsTruthyStr : Option String → Bool
  | none => false
  | some s => !(s == "")

/-- JavaScript truthiness for an output value (objects are truthy, a plain
string is truthy iff nonempty). -/
def jsTruthyOutput : Output → Bool
  | .text s => !(s == "")
  | _ => true

/-- Append an execution-log entry (Agent.addExecutionLog, timestamps omitted). -/
def appendLog (a : AgentBase) (action result : String) : AgentBase :=
  { a with executionLog := a.executionLog ++ [(action, result)] }

/-- History update performed by Agent.recordError (Agent.ts 327-350): push the
message, then if the history exceeds 20 entries shift off the oldest. -/
def recordErrorHist (e : String) (h : List String) : List String :=
  let h2 := h ++ [e]
  if h2.length > 20 then h2.tail else h2

/-- Agent.recordError: increment the counter, remember the last error, and
update the bounded history (monitor notification and persistence are external
effects). -/
def recordError (e : String) (a : AgentBase) : AgentBase :=
  { a with errorCount := a.errorCount + 1, lastError := some e,
           errorHistory := recordErrorHist e a.errorHistory }

/-- JavaScript arr.slice(-t): for t = 0 this is slice(0) (the whole array),
for t > 0 it is the trailing min(t, length) entries. -/
def jsSliceLast (h : List String) (t : Nat) : List String :=
  if t = 0 then h else h.drop (h.length - t)

/-- Agent.isInErrorLoop (Agent.ts 376-385): false when the history is shorter
than the threshold, else true iff the set of the trailing threshold entries
has exactly one distinct element. -/
def AgentBase.isInErrorLoop (a : AgentBase) (threshold : Nat) : Bool :=
  if a.errorHistory.length < threshold then false
  else (jsSliceLast a.errorHistory threshold).dedup.length == 1

/-- The trailing t entries of a history, as the spec phrases it ("the trailing
threshold entries"); for t = 0 this is the empty list. -/
def trailingEntries (t : Nat) (h : List String) : List String :=
  h.drop (h.length - t)

/-- Spec-side reading of the error-loop condition, taken from the claim's
words: the history has at least threshold entries and the trailing threshold
entries are all identical by exact text match. -/
def errorLoopSpecPred (t : Nat) (h : List String) : Prop :=
  t ≤ h.length ∧ ∀ x ∈ trailingEntries t h, ∀ y ∈ trailingEntries t h, x = y

instance (t : Nat) (h : List String) : Decidable (errorLoopSpecPred t h) := by
  unfold errorLoopSpecPred; infer_instance

/-- A concrete agent base used for instantiating theorems: a freshly
constructed child agent. -/
def baseAgent : AgentBase :=
  { id := "a", name := "agent", type := AgentType.child, parentId := none,
    status := AgentStatus.idle, currentTask := none, errorCount := 0,
    errorHistory := [], lastError := none, executionLog := [],
    config := defaultConfigOf "agent" }

/-- The concrete agent with a given error history. -/
def withHistory (h : List String) : AgentBase :=
  { baseAgent with errorHistory := h }

/-- ChildAgent.fallbackSelfTest (part_003, 402-423): false with no current
task; otherwise run the two structural test cases (a current task exists and
the status is running). -/
def fallbackSelfTest (a : AgentBase) : Bool :=
  match a.currentTask with
  | none => false
  | some _ => a.currentTask.isSome && (a.status == AgentStatus.running)

/-- The latest recorded execution output: the result of the last
executionLog entry whose action is task_executed, defaulting to the empty
string (part_003, 375-377). -/
def latestExecutedOutput (log : List (String × String)) : String :=
  match (log.filter (fun e => e.1 == "task_executed")).getLast? with
  | some e => e.2
  | none => ""

/-- ChildAgent.selfTest (part_003, 368-397).  The oracle is a function from
(task description, latest execution output) to either a verdict or a thrown
failure.  Returns the verdict together with the agent (whose execution log
records the outcome); never fails itself: an oracle failure falls back to
fallbackSelfTest. -/
def childSelfTest (a : AgentBase)
    (oracle : String → String → Except String SelfTestOutcome) : Bool × AgentBase :=
  match a.currentTask with
  | none => (false, a)
  | some t =>
    match oracle t.description (latestExecutedOutput a.executionLog) with
    | Except.ok res =>
        let a2 := appendLog a (if res.passed then "self_test_passed" else "self_test_failed")
          res.feedback
        (res.passed, a2)
    | Except.error e =>
        let a2 := appendLog a "self_test_error" ("Self-test error: " ++ e)
        (fallbackSelfTest a2, a2)

/-- ChildAgent.validateTaskContext (part_003, 456-466): the task must carry a
truthy context.instruction or a truthy description. -/
def validateTaskContext (task : AgentTask) : Bool :=
  !(!(jsTruthyStr (task.context.bind TaskContext.instruction)) && (task.description == ""))

/-- The instruction the worker performs:
task.context?.instruction || task.description (part_003, 473). -/
def effectiveInstruction (task : AgentTask) : String :=
  match task.context.bind TaskContext.instruction with
  | some s => if s == "" then task.description else s
  | none => task.description

/-- Result of one worker executeTask call: the task result, the worker's new
state, and the list of results passed to reportResult/reportToParent. -/
structure ExecOutcome : Type where
  result : TaskResult
  agent : AgentBase
  reports : List TaskResult

/-- The catch block of ChildAgent.executeTask (part_003, 337-361): log the
error, recordError, set status error_loop if isInErrorLoop(3) (the default
threshold) else failed, build a failure TaskResult and report it. -/
def childFailPath (a : AgentBase) (task : AgentTask) (msg : String) : ExecOutcome :=
  let a1 := appendLog a "error" ("Error: " ++ msg)
  let a2 := recordError msg a1
  let a3 := if a2.isInErrorLoop 3 then { a2 with status := AgentStatus.error_loop }
            else { a2 with status := AgentStatus.failed }
  let r : TaskResult :=
    { taskId := task.id, success := false, output := none, error := some msg,
      selfTestPassed := some false }
  let a4 := appendLog a3 "report_to_parent" ("Reporting result to parent")
  { result := r, agent := a4, reports := [r, r] }

/-- ChildAgent.executeTask (part_003, 297-362).  perform is the outcome of
performTask's oracle call (ok with the LLM output string, or a thrown error);
oracle is the self-test oracle as in childSelfTest.  Total: every path
produces an ExecOutcome. -/
def childExecuteTask (a : AgentBase) (task : AgentTask) (perform : Except String String)
    (oracle : String → String → Except String SelfTestOutcome) : ExecOutcome :=
  let a0 := { a with status := AgentStatus.running, currentTask := some task }
  let a1 := appendLog a0 "task_start" ("Starting task: " ++ task.description)
  if !(validateTaskContext task) then
    childFailPath a1 task "Invalid task context: missing required instruction"
  else
    let instruction := effectiveInstruction task
    let a2 := appendLog a1 "perform_task" ("Performing: " ++ instruction)
    match perform with
    | Except.error e => childFailPath (appendLog a2 "task_error" ("Error: " ++ e)) task e
    | Except.ok llmOut =>
        let a3 := appendLog a2 "task_executed" llmOut
        let a4 := appendLog a3 "self_test" "Running self-test with LLM..."
        let st := childSelfTest a4 oracle
        if st.1 then
          let a5 := appendLog st.2 "self_test_passed" "Self-test passed"
          let r : TaskResult :=
            { taskId := task.id, success := true,
              output := some (Output.workerOut a5.id task.id instruction llmOut),
              error := none, selfTestPassed := some true }
          let a6 := { a5 with status := AgentStatus.completed }
          let a7 := appendLog a6 "report_to_parent" ("Reporting result to parent")
          { result := r, agent := a7, reports := [r, r] }
        else
          childFailPath st.2 task "Self-test failed"

/-- RootAgent.dispatchTask's context isolation (part_002, 415-424): the task
handed to the worker keeps the subtask's own fields but its context is rebuilt
to hold exactly instruction = subTask.description, step and totalSteps. -/
def isolateTask (subTask : AgentTask) : AgentTask :=
  { subTask with
    context := some (TaskContext.mk (some subTask.description)
      (subTask.context.bind TaskContext.step)
      (subTask.context.bind TaskContext.totalSteps) none none) }

/-- Agreement of two subtasks on everything the dispatch boundary forwards:
id, description, parentTaskId, and the step/totalSteps context entries.  Two
tasks differing only in context.originalContext (or context.instruction or
context.parentTaskId) are related. -/
def lowEquiv (t1 t2 : AgentTask) : Prop :=
  t1.id = t2.id ∧ t1.description = t2.description ∧ t1.parentTaskId = t2.parentTaskId ∧
  t1.context.bind TaskContext.step = t2.context.bind TaskContext.step ∧
  t1.context.bind TaskContext.totalSteps = t2.context.bind TaskContext.totalSteps

/-- The oracle answers consumed by one dispatch: the execute outcome and the
self-test oracle. -/
structure DispatchOracle : Type where
  perform : Except String String
  selfTestOracle : String → String → Except String SelfTestOutcome

/-- Dispatch to a resolved worker (part_002, 408-427 past the resolution
step): isolate the context and invoke the worker's executeTask.  The worker's
children are untouched by its executeTask. -/
def dispatchToAgent (a : AgentTree) (subTask : AgentTask) (o : DispatchOracle) :
    TaskResult × AgentTree :=
  let out := childExecuteTask a.base (isolateTask subTask) o.perform o.selfTestOracle
  (out.result, AgentTree.node out.agent a.children)

/-- RootAgent.findAvailableChild (part_002, 464-471): the first child in
insertion order whose status is idle or completed. -/
def findAvailableChild (children : List AgentTree) : Option AgentTree :=
  children.find? (fun c =>
    (c.base.status == AgentStatus.idle) || (c.base.status == AgentStatus.completed))

/-- RootAgent.dispatchTask (part_002, 408-427): resolve the target (the
supplied one, else the first available child, else fail), then dispatch. -/
def dispatchTask (children : List AgentTree) (subTask : AgentTask)
    (target : Option AgentTree) (o : DispatchOracle) :
    Except String (TaskResult × AgentTree) :=
  match target with
  | some a => Except.ok (dispatchToAgent a subTask o)
  | none =>
    match findAvailableChild children with
    | some a => Except.ok (dispatchToAgent a subTask o)
    | none => Except.error "No available child agent found"

/-- Map.get on the children map. -/
def lookupChild (cs : List AgentTree) (cid : String) : Option AgentTree :=
  cs.find? (fun c => c.base.id == cid)

/-- Map.set on the children map keyed by node id: replace in place when the
key exists, else append. -/
def mapSet (cs : List AgentTree) (a : AgentTree) : List AgentTree :=
  if cs.any (fun c => c.base.id == a.base.id) then
    cs.map (fun c => if c.base.id == a.base.id then a else c)
  else cs ++ [a]

mutual

/-- Agent.terminate (Agent.ts 101-115): set status terminated and recursively
terminate every child with the derived reason
"Parent agent (id) terminated: (reason or unknown)"; the reason string is
threaded to children but not stored.  Monitor stop and persistence are
external effects. -/
def terminateTree (reason : String) : AgentTree → AgentTree
  | .node b cs =>
      AgentTree.node { b with status := AgentStatus.terminated }
        (terminateChildren
          ("Parent agent " ++ b.id ++ " terminated: " ++
            (if reason == "" then "unknown" else reason)) cs)

def terminateChildren (reason : String) : List AgentTree → List AgentTree
  | [] => []
  | c :: cs => terminateTree reason c :: terminateChildren reason cs

end

mutual

/-- Every node of the tree has status terminated. -/
def allTerminated : AgentTree → Bool
  | .node b cs => (b.status == AgentStatus.terminated) && allTerminatedList cs

def allTerminatedList : List AgentTree → Bool
  | [] => true
  | c :: cs => allTerminated c && allTerminatedList cs

end

/-- The reason Agent.recreate passes to terminate (Agent.ts 391). -/
def recreateReason : String := "Recreating due to error loop"

/-- The replacement node Agent.recreate constructs and initializes
(Agent.ts 393-410): a fresh id, the same kind, and the old node's config
(which carries name, parentId, maxRetries, timeout) spread into a new config
whose enableMonitor is overridden to true (Agent.ts 396); status idle after
initialize, and empty history/children. -/
def recreateReplacement (a : AgentTree) (freshId : String) : AgentTree :=
  AgentTree.node
    { id := freshId, name := a.base.name, type := a.base.type,
      parentId := a.base.parentId, status := AgentStatus.idle, currentTask := none,
      errorCount := 0, errorHistory := [], lastError := none, executionLog := [],
      config := { a.base.config with enableMonitor := true } } []

/-- Agent.recreate (Agent.ts 390-411): terminate the old node with
recreateReason, then construct and initialize the replacement. -/
def recreate (a : AgentTree) (freshId : String) : AgentTree × AgentTree :=
  (terminateTree recreateReason a, recreateReplacement a freshId)

/-- Agent.addChild (Agent.ts 120-142): throw unless the parent is root or
still childless; otherwise construct a ChildAgent whose config gains
parentId = this.id and type child, and set it in the children map under its
id (config id if supplied, else a fresh uuid).  Returns the updated parent
and the child. -/
def addChild (p : AgentTree) (cfg : AgentConfig) (cfgId : Option String)
    (freshId : String) : Except String (AgentTree × AgentTree) :=
  if (!(p.base.type == AgentType.root)) && decide (1 ≤ p.children.length) then
    Except.error "Only root agent can have multiple children"
  else
    let child : AgentTree := AgentTree.node
      { id := cfgId.getD freshId, name := cfg.name, type := AgentType.child,
        parentId := some p.base.id, status := AgentStatus.idle, currentTask := none,
        errorCount := 0, errorHistory := [], lastError := none, executionLog := [],
        config := cfg } []
    Except.ok (AgentTree.node p.base (mapSet p.children child), child)

/-- RootAgent.aggregateResults (part_002, 432-459).  Array.prototype.filter
on truthiness keeps only truthy output/error values (empty strings are
falsy). -/
def aggregateResults (currentTaskId : String) (results : List TaskResult) : TaskResult :=
  let allSuccess := results.all (fun r => r.success)
  let allSelfTestPassed := results.all (fun r => r.selfTestPassed.getD false)
  let outputs := (results.filterMap (fun r => r.output)).filter jsTruthyOutput
  let errors := (results.filterMap (fun r => r.error)).filter (fun e => !(e == ""))
  { taskId := currentTaskId,
    success := allSuccess && allSelfTestPassed,
    output := some (Output.agg true results.length
      (results.filter (fun r => r.success)).length
      (results.filter (fun r => r.selfTestPassed.getD false)).length
      outputs errors),
    error := if 0 < errors.length then some (String.intercalate "; " errors) else none,
    selfTestPassed := some allSelfTestPassed }

/-- One iteration's state in the coordinator's subtask loop. -/
structure SubTaskStep : Type where
  children : List AgentTree
  results : List TaskResult

/-- The body of the per-subtask loop of RootAgent.executeTask (part_002,
319-350): acquire or create a worker, dispatch, and on a failed result from a
worker now in error_loop, recreate it, set the replacement in the children
map, re-dispatch the same subtask once and overwrite the last collected
result.  Object mutation through shared references is modelled by writing the
dispatched worker's new state back into the children map; recreate's
termination of the old worker mutates the old entry in place. -/
def processSubTask (children : List AgentTree) (results : List TaskResult)
    (subTask : AgentTask) (o1 o2 : DispatchOracle)
    (parentId freshChildId freshRecreateId : String) : SubTaskStep :=
  let resolved : AgentTree × List AgentTree :=
    match findAvailableChild children with
    | some a => (a, children)
    | none =>
        let cfg : AgentConfig :=
          { name := "child-agent-" ++ toString (children.length + 1), maxRetries := 3,
            timeout := 120000, enableMonitor := true, description := "",
            template := "ChildAgent" }
        let a : AgentTree := AgentTree.node
          { id := freshChildId, name := cfg.name, type := AgentType.child,
            parentId := some parentId, status := AgentStatus.idle, currentTask := none,
            errorCount := 0, errorHistory := [], lastError := none, executionLog := [],
            config := cfg } []
        (a, mapSet children a)
  let step1 := dispatchToAgent resolved.1 subTask o1
  let children2 := mapSet resolved.2 step1.2
  let results1 := results ++ [step1.1]
  if (!step1.1.success) && (step1.2.base.status == AgentStatus.error_loop) then
    let rec1 := recreate step1.2 freshRecreateId
    let children3 := mapSet children2 rec1.1
    let children4 := mapSet children3 rec1.2
    let step2 := dispatchToAgent rec1.2 subTask o2
    let children5 := mapSet children4 step2.2
    { children := children5, results := results1.dropLast ++ [step2.1] }
  else
    { children := children2, results := results1 }

/-- A worker two identical failures away from an error loop, as the children
map entry "w". -/
def wEx : AgentTree :=
  AgentTree.node { baseAgent with id := "w", errorHistory := ["E", "E"] } []

/-- A concrete subtask. -/
def tEx : AgentTask :=
  { id := "s1", description := "d", context := none, parentTaskId := none }

/-- Oracle answers making a dispatch fail with message "E". -/
def o1Ex : DispatchOracle :=
  { perform := Except.error "E", selfTestOracle := fun _ _ => Except.error "x" }

/-- Oracle answers making a dispatch succeed with a passing self-test. -/
def o2Ex : DispatchOracle :=
  { perform := Except.ok "done",
    selfTestOracle := fun _ _ => Except.ok { passed := true, feedback := "fine" } }

/-- A nested context standing for a parent task's originalContext payload. -/
def innerCtxEx : TaskContext := TaskContext.mk none none none none none

/-- A subtask carrying an originalContext, as decomposeTask builds them. -/
def t1Ex : AgentTask :=
  { id := "s2", description := "d2",
    context := some (TaskContext.mk none (some 1) (some 2) (some "p0") (some innerCtxEx)),
    parentTaskId := some "p0" }

/-- The same subtask with its originalContext removed. -/
def t2Ex : AgentTask :=
  { t1Ex with
    context := some (TaskContext.mk none (some 1) (some 2) (some "p0") none) }

/-- A concrete worker tree node for dispatch instantiation. -/
def agEx : AgentTree := AgentTree.node baseAgent []

/-- A successful, self-test-passing result. -/
def r1Ex : TaskResult :=
  { taskId := "a", success := true, output := some (Output.text "o1"), error := none,
    selfTestPassed := some true }

/-- A successful result whose self-test failed. -/
def r2Ex : TaskResult :=
  { taskId := "b", success := true, output := none, error := none,
    selfTestPassed := some false }

/-- A running worker holding a task and one recorded execution output. -/
def stAgentEx : AgentBase :=
  { baseAgent with
    status := AgentStatus.running,
    currentTask := some tEx,
    executionLog := [("task_executed", "out1")] }

/-- A self-test oracle that always fails. -/
def stOracleErrEx : String → String → Except String SelfTestOutcome :=
  fun _ _ => Except.error "boom"

/-- A root parent with no children. -/
def rootPEx : AgentTree :=
  AgentTree.node { baseAgent with id := "r", type := AgentType.root } []

/-- A non-root parent that already has one child. -/
def busyPEx : AgentTree :=
  AgentTree.node { baseAgent with id := "q" }
    [AgentTree.node { baseAgent with id := "c0" } []]

/-- A child configuration to add. -/
def cfgEx : AgentConfig := defaultConfigOf "kid"

/-- The (parent, child) pair produced by a successful addChild on the root
parent. -/
def addedPairEx : AgentTree × AgentTree :=
  ((addChild rootPEx cfgEx none "x").toOption).getD (rootPEx, rootPEx)

theorem dedup_length_one_iff (l : List String) :
    (l.dedup.length == 1) = true ↔ l ≠ [] ∧ ∀ x ∈ l, ∀ y ∈ l, x = y := by
  rw [beq_iff_eq]
  constructor
  · intro h1
    obtain ⟨a, ha⟩ := List.length_eq_one.mp h1
    constructor
    · intro hnil
      rw [hnil] at ha
      simp at ha
    · intro x hx y hy
      have hx2 : x ∈ l.dedup := List.mem_dedup.mpr hx
      have hy2 : y ∈ l.dedup := List.mem_dedup.mpr hy
      rw [ha, List.mem_singleton] at hx2 hy2
      rw [hx2, hy2]
  · rintro ⟨hne, hall⟩
    rcases hd : l.dedup with _ | ⟨a, tl⟩
    · exact absurd ((List.dedup_eq_nil l).mp hd) hne
    · rcases tl with _ | ⟨b, tl2⟩
      · simp
      · exfalso
        have hnd := l.nodup_dedup
        rw [hd] at hnd
        have hma : a ∈ l := List.mem_dedup.mp (by rw [hd]; simp)
        have hmb : b ∈ l := List.mem_dedup.mp (by rw [hd]; simp)
        have hab : a = b := hall a hma b hmb
        rw [hab] at hnd
        simp [List.nodup_cons] at hnd

/-- C2 (amended: the iff holds for every threshold of at least 1; at
threshold 0 the code's slice(-0) reads the whole history, see the
counterexample): for every agent and every threshold of at least 1,
isInErrorLoop(threshold) returns true iff the error history has at least
threshold entries and the trailing threshold entries are all identical by
exact text match, ignoring older entries; and the three documented examples
hold: isInErrorLoop 3 gives false on A,B,A; true on A,A,A; false on A,A. -/
theorem C2_isInErrorLoop_spec :
    (∀ (a : AgentBase) (t : Nat), 1 ≤ t →
      (a.isInErrorLoop t = true ↔ errorLoopSpecPred t a.errorHistory)) ∧
    (withHistory ["A", "B", "A"]).isInErrorLoop 3 = false ∧
    (withHistory ["A", "A", "A"]).isInErrorLoop 3 = true ∧
    (withHistory ["A", "A"]).isInErrorLoop 3 = false := by
  refine ⟨?_, by decide, by decide, by decide⟩
  intro a t ht
  unfold AgentBase.isInErrorLoop
  split
  · next hlt =>
      simp only [Bool.false_eq_true, false_iff]
      intro hc
      have := hc.1
      omega
  · next hge =>
      have hle : t ≤ a.errorHistory.length := by omega
      rw [jsSliceLast, if_neg (by omega)]
      rw [dedup_length_one_iff]
      unfold errorLoopSpecPred trailingEntries
      constructor
      · rintro ⟨_, hall⟩
        exact ⟨hle, hall⟩
      · rintro ⟨_, hall⟩
        refine ⟨?_, hall⟩
        intro hnil
        have hlen := congrArg List.length hnil
        rw [List.length_drop] at hlen
        simp at hlen
        omega

/-- C2 counterexample: the claim quantifies over every threshold, but at
threshold 0 with an empty history the code returns false (slice(-0) yields
the whole, empty, history whose distinct-element count is 0, not 1), while
the claimed condition (at least 0 entries, trailing 0 entries all identical)
holds vacuously. -/
theorem C2_counterexample :
    ¬ ((withHistory []).isInErrorLoop 0 = true ↔ errorLoopSpecPred 0 []) := by
  decide

/-- C2 witness: the amended theorem applied at threshold 3 and the history
A,A,A. -/
theorem C2_witness :
    (withHistory ["A", "A", "A"]).isInErrorLoop 3 = true ↔
      errorLoopSpecPred 3 ["A", "A", "A"] := by
  have h := C2_isInErrorLoop_spec.1 (withHistory ["A", "A", "A"]) 3 (by decide)
  exact h

mutual

theorem terminateTree_idem_aux (r r' : String) :
    ∀ (a : AgentTree), terminateTree r' (terminateTree r a) = terminateTree r a
  | .node b cs => by
      simp only [terminateTree]
      congr 1
      exact terminateChildren_idem_aux _ _ cs

theorem terminateChildren_idem_aux (r r' : String) :
    ∀ (cs : List AgentTree),
      terminateChildren r' (terminateChildren r cs) = terminateChildren r cs
  | [] => by simp only [terminateChildren]
  | c :: cs => by
      simp only [terminateChildren]
      rw [terminateTree_idem_aux r r' c, terminateChildren_idem_aux r r' cs]

end

mutual

theorem allTerminated_terminateTree (r : String) :
    ∀ (a : AgentTree), allTerminated (terminateTree r a) = true
  | .node b cs => by
      simp only [terminateTree, allTerminated, Bool.and_eq_true]
      exact ⟨rfl, allTerminatedList_terminateChildren _ cs⟩

theorem allTerminatedList_terminateChildren (r : String) :
    ∀ (cs : List AgentTree), allTerminatedList (terminateChildren r cs) = true
  | [] => by simp only [terminateChildren, allTerminatedList]
  | c :: cs => by
      simp only [terminateChildren, allTerminatedList, Bool.and_eq_true]
      exact ⟨allTerminated_terminateTree _ c, allTerminatedList_terminateChildren _ cs⟩

end

theorem terminateTree_base_id (r : String) (a : AgentTree) :
    (terminateTree r a).base.id = a.base.id := by
  cases a with
  | node b cs => simp only [terminateTree]; rfl

/-- C7: terminate(reason) sets the node's status to terminated and
recursively terminates every child (every node of the resulting tree is
terminated), and it is idempotent: a second terminate call, with any reason,
raises nothing (it is a total function) and leaves the tree in exactly the
state the first call produced, in particular still terminated. -/
theorem C7_terminate_idempotent : ∀ (r r' : String) (a : AgentTree),
    (terminateTree r a).base.status = AgentStatus.terminated ∧
    allTerminated (terminateTree r a) = true ∧
    terminateTree r' (terminateTree r a) = terminateTree r a := by
  intro r r' a
  refine ⟨?_, allTerminated_terminateTree r a, terminateTree_idem_aux r r' a⟩
  cases a with
  | node b cs => simp only [terminateTree]; rfl

/-- C6 (amended: the termination reason is "Recreating due to error loop",
with a capital R, not "recreating due to error loop"): recreate first
terminates the old node with reason recreateReason, then returns a freshly
constructed and initialized node of the same kind whose id is the supplied
fresh id (hence differs from the old id) and whose configuration keeps the
claimed fields — name, kind, timeout, maxRetries — unchanged, while recreate
itself forces enableMonitor to true (Agent.ts 396). -/
theorem C6_recreate_spec : ∀ (a : AgentTree) (freshId : String),
    freshId ≠ a.base.id →
    recreateReason = "Recreating due to error loop" ∧
    (recreate a freshId).1 = terminateTree recreateReason a ∧
    allTerminated (recreate a freshId).1 = true ∧
    (recreate a freshId).2.base.id = freshId ∧
    (recreate a freshId).2.base.id ≠ a.base.id ∧
    (recreate a freshId).2.base.type = a.base.type ∧
    (recreate a freshId).2.base.name = a.base.name ∧
    (recreate a freshId).2.base.config.name = a.base.config.name ∧
    (recreate a freshId).2.base.config.timeout = a.base.config.timeout ∧
    (recreate a freshId).2.base.config.maxRetries = a.base.config.maxRetries ∧
    (recreate a freshId).2.base.config.enableMonitor = true ∧
    (recreate a freshId).2.base.status = AgentStatus.idle := by
  intro a fid h
  exact ⟨rfl, rfl, allTerminated_terminateTree _ a, rfl, h, rfl, rfl, rfl, rfl, rfl,
    rfl, rfl⟩

/-- C6 counterexample: the reason recreate passes to terminate is
"Recreating due to error loop" (Agent.ts 391), which is not the string
"recreating due to error loop" stated by the claim. -/
theorem C6_counterexample : recreateReason ≠ "recreating due to error loop" := by
  decide

/-- C6 witness: the amended theorem applied to the concrete worker wEx and
fresh id "fresh". -/
theorem C6_witness :
    (recreate wEx "fresh").2.base.id = "fresh" ∧
    (recreate wEx "fresh").2.base.id ≠ wEx.base.id ∧
    (recreate wEx "fresh").2.base.config.timeout = wEx.base.config.timeout ∧
    (recreate wEx "fresh").2.base.config.maxRetries = wEx.base.config.maxRetries := by
  have h := C6_recreate_spec wEx "fresh" (by decide)
  exact ⟨h.2.2.2.1, h.2.2.2.2.1, h.2.2.2.2.2.2.2.2.1, h.2.2.2.2.2.2.2.2.2.1⟩

theorem all_and_bool {α : Type} (p q : α → Bool) (l : List α) :
    l.all (fun x => p x && q x) = (l.all p && l.all q) := by
  induction l with
  | nil => rfl
  | cons a l ih =>
      simp only [List.all_cons, ih]
      cases hp : p a <;> cases hq : q a <;> cases h1 : l.all p <;> cases h2 : l.all q <;> rfl

theorem recordErrorHist_length_le (e : String) (h : List String)
    (hle : h.length ≤ 20) : (recordErrorHist e h).length ≤ 20 := by
  unfold recordErrorHist
  simp only []
  split
  · next hgt =>
      rw [List.length_tail]
      simp only [List.length_append, List.length_singleton]
      omega
  · next hgt =>
      simp only [List.length_append, List.length_singleton] at hgt ⊢
      omega

theorem recordErrorHist_evict (e : String) (h : List String)
    (hlen : h.length = 20) : recordErrorHist e h = h.tail ++ [e] := by
  unfold recordErrorHist
  simp only []
  rw [if_pos (by simp [hlen])]
  cases h with
  | nil => simp at hlen
  | cons x xs => simp

theorem recordError_fold_bound (errs : List String) (a : AgentBase)
    (hle : a.errorHistory.length ≤ 20) :
    ((errs.foldl (fun b e => recordError e b) a).errorHistory).length ≤ 20 := by
  induction errs generalizing a with
  | nil => simpa using hle
  | cons e errs ih =>
      simp only [List.foldl_cons]
      exact ih _ (by simpa [recordError] using recordErrorHist_length_le e a.errorHistory hle)

theorem childSelfTest_preserves (b : AgentBase)
    (oracle : String → String → Except String SelfTestOutcome) :
    (childSelfTest b oracle).2.errorHistory = b.errorHistory ∧
    (childSelfTest b oracle).2.errorCount = b.errorCount ∧
    (childSelfTest b oracle).2.lastError = b.lastError ∧
    (childSelfTest b oracle).2.status = b.status ∧
    (childSelfTest b oracle).2.currentTask = b.currentTask ∧
    (childSelfTest b oracle).2.id = b.id ∧
    (childSelfTest b oracle).2.config = b.config := by
  unfold childSelfTest
  cases hct : b.currentTask with
  | none => simp [hct]
  | some t =>
      simp only [hct]
      cases ho : oracle t.description (latestExecutedOutput b.executionLog) with
      | ok res => simp [appendLog, hct]
      | error e => simp [appendLog, hct]

theorem childFailPath_spec (b : AgentBase) (task : AgentTask) (msg : String) :
    (childFailPath b task msg).result.taskId = task.id ∧
    (childFailPath b task msg).result.success = false ∧
    (childFailPath b task msg).result.selfTestPassed = some false ∧
    (childFailPath b task msg).result.error = some msg ∧
    (childFailPath b task msg).reports =
      [(childFailPath b task msg).result, (childFailPath b task msg).result] ∧
    (childFailPath b task msg).agent.errorHistory = recordErrorHist msg b.errorHistory ∧
    (childFailPath b task msg).agent.lastError = some msg ∧
    (childFailPath b task msg).agent.errorCount = b.errorCount + 1 ∧
    (childFailPath b task msg).agent.id = b.id ∧
    (childFailPath b task msg).agent.config = b.config ∧
    (((childFailPath b task msg).agent.isInErrorLoop 3 = true ∧
      (childFailPath b task msg).agent.status = AgentStatus.error_loop) ∨
     ((childFailPath b task msg).agent.isInErrorLoop 3 = false ∧
      (childFailPath b task msg).agent.status = AgentStatus.failed)) := by
  unfold childFailPath
  simp only [appendLog, recordError]
  split
  · next hl =>
      refine ⟨?_, ?_, ?_, ?_, ?_, ?_, ?_, ?_, ?_, ?_, Or.inl ⟨?_, ?_⟩⟩ <;>
        first | trivial | rfl | exact hl
  · next hl =>
      refine ⟨?_, ?_, ?_, ?_, ?_, ?_, ?_, ?_, ?_, ?_, Or.inr ⟨?_, ?_⟩⟩ <;>
        first | trivial | rfl | exact (Bool.not_eq_true _) ▸ hl

theorem childExecuteTask_split (a : AgentBase) (task : AgentTask)
    (perform : Except String String)
    (oracle : String → String → Except String SelfTestOutcome) :
    (childExecuteTask a task perform oracle).result.taskId = task.id ∧
    (childExecuteTask a task perform oracle).reports =
      [(childExecuteTask a task perform oracle).result,
       (childExecuteTask a task perform oracle).result] ∧
    (((childExecuteTask a task perform oracle).result.success = true ∧
      (childExecuteTask a task perform oracle).result.selfTestPassed = some true ∧
      (childExecuteTask a task perform oracle).result.error = none ∧
      (childExecuteTask a task perform oracle).agent.status = AgentStatus.completed ∧
      (childExecuteTask a task perform oracle).agent.errorHistory = a.errorHistory ∧
      (childExecuteTask a task perform oracle).agent.errorCount = a.errorCount) ∨
     ((childExecuteTask a task perform oracle).result.success = false ∧
      (childExecuteTask a task perform oracle).result.selfTestPassed = some false ∧
      (∃ msg, (childExecuteTask a task perform oracle).result.error = some msg ∧
        (childExecuteTask a task perform oracle).agent.errorHistory =
          recordErrorHist msg a.errorHistory ∧
        (childExecuteTask a task perform oracle).agent.lastError = some msg) ∧
      (childExecuteTask a task perform oracle).agent.errorCount = a.errorCount + 1 ∧
      (((childExecuteTask a task perform oracle).agent.isInErrorLoop 3 = true ∧
        (childExecuteTask a task perform oracle).agent.status = AgentStatus.error_loop) ∨
       ((childExecuteTask a task perform oracle).agent.isInErrorLoop 3 = false ∧
        (childExecuteTask a task perform oracle).agent.status = AgentStatus.failed)))) := by
  cases perform with
  | error e =>
      simp only [childExecuteTask]
      split
      · next hval =>
          have h := childFailPath_spec
            (appendLog { a with status := AgentStatus.running, currentTask := some task }
              "task_start" ("Starting task: " ++ task.description))
            task "Invalid task context: missing required instruction"
          obtain ⟨h1, h2, h3, h4, h5, h6, h7, h8, _, _, h11⟩ := h
          exact ⟨h1, h5, Or.inr ⟨h2, h3, ⟨_, h4, h6, h7⟩, h8, h11⟩⟩
      · next hval =>
          have h := childFailPath_spec
            (appendLog (appendLog
              (appendLog { a with status := AgentStatus.running, currentTask := some task }
                "task_start" ("Starting task: " ++ task.description))
              "perform_task" ("Performing: " ++ effectiveInstruction task))
              "task_error" ("Error: " ++ e)) task e
          obtain ⟨h1, h2, h3, h4, h5, h6, h7, h8, _, _, h11⟩ := h
          exact ⟨h1, h5, Or.inr ⟨h2, h3, ⟨e, h4, h6, h7⟩, h8, h11⟩⟩
  | ok llmOut =>
      simp only [childExecuteTask]
      split
      · next hval =>
          have h := childFailPath_spec
            (appendLog { a with status := AgentStatus.running, currentTask := some task }
              "task_start" ("Starting task: " ++ task.description))
            task "Invalid task context: missing required instruction"
          obtain ⟨h1, h2, h3, h4, h5, h6, h7, h8, _, _, h11⟩ := h
          exact ⟨h1, h5, Or.inr ⟨h2, h3, ⟨_, h4, h6, h7⟩, h8, h11⟩⟩
      · next hval =>
          split
          · next hst =>
              refine ⟨rfl, rfl, Or.inl ⟨rfl, rfl, rfl, rfl, ?_, ?_⟩⟩
              · exact (childSelfTest_preserves _ oracle).1
              · exact (childSelfTest_preserves _ oracle).2.1
          · next hst =>
              have h := childFailPath_spec
                (childSelfTest
                  (appendLog (appendLog (appendLog
                    (appendLog { a with status := AgentStatus.running, currentTask := some task }
                      "task_start" ("Starting task: " ++ task.description))
                    "perform_task" ("Performing: " ++ effectiveInstruction task))
                    "task_executed" llmOut)
                    "self_test" "Running self-test with LLM...") oracle).2
                task "Self-test failed"
              obtain ⟨h1, h2, h3, h4, h5, h6, h7, h8, _, _, h11⟩ := h
              rw [(childSelfTest_preserves _ oracle).1] at h6
              rw [(childSelfTest_preserves _ oracle).2.1] at h8
              exact ⟨h1, h5, Or.inr ⟨h2, h3, ⟨_, h4, h6, h7⟩, h8, h11⟩⟩

/-- C5: for every task, a worker's executeTask never raises to its caller:
it is a total function that on every path builds a TaskResult for the task
and hands it to reportResult and reportToParent; on every failure path it has
called recordError (error count incremented, the failure message recorded in
the bounded history) and then set status error_loop if isInErrorLoop(3) is
true on the updated history and failed otherwise, with success false in the
result; on success it sets status completed.  Persistence is an external
effect of reportResult and is not part of the state. -/
theorem C5_worker_executeTask_spec : ∀ (a : AgentBase) (task : AgentTask)
    (perform : Except String String)
    (oracle : String → String → Except String SelfTestOutcome),
    (childExecuteTask a task perform oracle).result.taskId = task.id ∧
    (childExecuteTask a task perform oracle).reports =
      [(childExecuteTask a task perform oracle).result,
       (childExecuteTask a task perform oracle).result] ∧
    (((childExecuteTask a task perform oracle).result.success = true ∧
      (childExecuteTask a task perform oracle).result.selfTestPassed = some true ∧
      (childExecuteTask a task perform oracle).agent.status = AgentStatus.completed) ∨
     ((childExecuteTask a task perform oracle).result.success = false ∧
      (childExecuteTask a task perform oracle).result.selfTestPassed = some false ∧
      (childExecuteTask a task perform oracle).agent.errorCount = a.errorCount + 1 ∧
      (∃ msg, (childExecuteTask a task perform oracle).result.error = some msg ∧
        (childExecuteTask a task perform oracle).agent.errorHistory =
          recordErrorHist msg a.errorHistory) ∧
      (((childExecuteTask a task perform oracle).agent.isInErrorLoop 3 = true ∧
        (childExecuteTask a task perform oracle).agent.status = AgentStatus.error_loop) ∨
       ((childExecuteTask a task perform oracle).agent.isInErrorLoop 3 = false ∧
        (childExecuteTask a task perform oracle).agent.status = AgentStatus.failed)))) := by
  intro a task perform oracle
  obtain ⟨h1, h2, h3⟩ := childExecuteTask_split a task perform oracle
  refine ⟨h1, h2, ?_⟩
  rcases h3 with ⟨hs, hstp, _, hst, _, _⟩ | ⟨hs, hstp, ⟨msg, he, hh, _⟩, hc, hd⟩
  · exact Or.inl ⟨hs, hstp, hst⟩
  · exact Or.inr ⟨hs, hstp, hc, ⟨msg, he, hh⟩, hd⟩

/-- C8: the error history length never exceeds 20: recordError keeps any
bounded history bounded; pushing onto a full history of 20 evicts the oldest
entry and appends the new one at the end (order preserved); any sequence of
recordError calls from a bounded state stays bounded; and the other node
operations preserve the bound (terminate leaves the history untouched, a
worker executeTask adds at most one bounded record, a recreated node starts
empty). -/
theorem C8_errorHistory_bounded :
    (∀ (e : String) (h : List String), h.length ≤ 20 →
      (recordErrorHist e h).length ≤ 20) ∧
    (∀ (e : String) (h : List String), h.length = 20 →
      recordErrorHist e h = h.tail ++ [e]) ∧
    (∀ (errs : List String) (a : AgentBase), a.errorHistory.length ≤ 20 →
      ((errs.foldl (fun b e => recordError e b) a).errorHistory).length ≤ 20) ∧
    (∀ (r : String) (t : AgentTree),
      (terminateTree r t).base.errorHistory = t.base.errorHistory) ∧
    (∀ (a : AgentBase) (task : AgentTask) (perform : Except String String)
      (oracle : String → String → Except String SelfTestOutcome),
      a.errorHistory.length ≤ 20 →
      ((childExecuteTask a task perform oracle).agent.errorHistory).length ≤ 20) ∧
    (∀ (a : AgentTree) (fid : String),
      ((recreate a fid).2.base.errorHistory).length ≤ 20) := by
  refine ⟨recordErrorHist_length_le, recordErrorHist_evict, recordError_fold_bound,
    ?_, ?_, ?_⟩
  · intro r t
    cases t with
    | node b cs =>
        simp only [terminateTree]
        rfl
  · intro a task perform oracle hle
    obtain ⟨_, _, h3⟩ := childExecuteTask_split a task perform oracle
    rcases h3 with ⟨_, _, _, _, hh, _⟩ | ⟨_, _, ⟨msg, _, hh, _⟩, _, _⟩
    · rw [hh]; exact hle
    · rw [hh]; exact recordErrorHist_length_le msg _ hle
  · intro a fid
    exact Nat.zero_le 20

/-- C8 witness: the bound, the eviction shape, a fold of three records, and a
failing executeTask, all starting from a full history of 20 entries. -/
theorem C8_witness :
    (recordErrorHist "E" (List.replicate 20 "X")).length ≤ 20 ∧
    recordErrorHist "E" (List.replicate 20 "X") = (List.replicate 20 "X").tail ++ ["E"] ∧
    ((["a", "b", "c"].foldl (fun b e => recordError e b)
        (withHistory (List.replicate 20 "X"))).errorHistory).length ≤ 20 ∧
    ((childExecuteTask (withHistory (List.replicate 20 "X")) tEx (Except.error "E")
        stOracleErrEx).agent.errorHistory).length ≤ 20 := by
  refine ⟨C8_errorHistory_bounded.1 "E" _ (by decide),
    C8_errorHistory_bounded.2.1 "E" _ (by decide),
    C8_errorHistory_bounded.2.2.1 ["a", "b", "c"] _ (by decide),
    C8_errorHistory_bounded.2.2.2.2.1 _ tEx (Except.error "E") stOracleErrEx (by decide)⟩

/-- C4: aggregateResults returns success equal to the conjunction over all
results of success AND selfTestPassed; its selfTestPassed and taskId fields;
an output object carrying the total count, the success count, the
self-test-passed count and the (truthy) individual outputs and errors; an
error that is the semicolon-joined list of individual error strings and is
absent when there are none; and the documented example yields success false
with successCount 2 and selfTestPassedCount 1. -/
theorem C4_aggregateResults_spec : ∀ (tid : String) (results : List TaskResult),
    ((aggregateResults tid results).success =
      results.all (fun r => r.success && r.selfTestPassed.getD false)) ∧
    ((aggregateResults tid results).selfTestPassed =
      some (results.all (fun r => r.selfTestPassed.getD false))) ∧
    ((aggregateResults tid results).taskId = tid) ∧
    ((aggregateResults tid results).output =
      some (Output.agg true results.length
        (results.countP (fun r => r.success))
        (results.countP (fun r => r.selfTestPassed.getD false))
        ((results.filterMap (fun r => r.output)).filter jsTruthyOutput)
        ((results.filterMap (fun r => r.error)).filter (fun e => !(e == ""))))) ∧
    ((aggregateResults tid results).error =
      (if ((results.filterMap (fun r => r.error)).filter (fun e => !(e == ""))) = []
       then none
       else some (String.intercalate "; "
         ((results.filterMap (fun r => r.error)).filter (fun e => !(e == "")))))) ∧
    (aggregateResults "t" [r1Ex, r2Ex]).success = false ∧
    (aggregateResults "t" [r1Ex, r2Ex]).output =
      some (Output.agg true 2 2 1 [Output.text "o1"] []) := by
  intro tid results
  refine ⟨?_, rfl, rfl, ?_, ?_, rfl, rfl⟩
  · simp only [aggregateResults]
    exact (all_and_bool _ _ results).symm
  · simp only [aggregateResults]
    rw [List.countP_eq_length_filter, List.countP_eq_length_filter]
  · simp only [aggregateResults]
    generalize ((results.filterMap (fun r => r.error)).filter (fun e => !(e == ""))) = L
    cases L with
    | nil => rfl
    | cons x xs => simp

/-- C1: the task handed into the worker by dispatchTask has a context that is
exactly the record holding instruction = subTask.description plus the
subtask's step and totalSteps; in particular its originalContext entry is
absent; and dispatch is insensitive to the originalContext: any two subtasks
agreeing on the dispatched projection (id, description, parentTaskId, step,
totalSteps) produce identical dispatches, whatever their originalContext. -/
theorem C1_dispatch_context_isolation : ∀ (subTask : AgentTask),
    ((isolateTask subTask).context = some (TaskContext.mk (some subTask.description)
      (subTask.context.bind TaskContext.step)
      (subTask.context.bind TaskContext.totalSteps) none none)) ∧
    ((isolateTask subTask).context.bind TaskContext.originalContext = none) ∧
    (∀ (t2 : AgentTask) (a : AgentTree) (o : DispatchOracle), lowEquiv subTask t2 →
      dispatchToAgent a subTask o = dispatchToAgent a t2 o) := by
  intro t1
  refine ⟨rfl, rfl, ?_⟩
  intro t2 ag o h
  obtain ⟨h1, h2, h3, h4, h5⟩ := h
  have hiso : isolateTask t1 = isolateTask t2 := by
    obtain ⟨i1, d1, c1, p1⟩ := t1
    obtain ⟨i2, d2, c2, p2⟩ := t2
    dsimp only at h1 h2 h3 h4 h5
    subst h1
    subst h2
    subst h3
    unfold isolateTask
    dsimp only
    rw [h4, h5]
  unfold dispatchToAgent
  rw [hiso]

/-- C1 witness: the dispatch of a subtask carrying an originalContext is
identical to the dispatch of the same subtask with the originalContext
removed. -/
theorem C1_witness : dispatchToAgent agEx t1Ex o2Ex = dispatchToAgent agEx t2Ex o2Ex :=
  (C1_dispatch_context_isolation t1Ex).2.2 t2Ex agEx o2Ex ⟨rfl, rfl, rfl, rfl, rfl⟩

/-- C9: a worker's selfTest never raises (it is a total function): with a
current task it delegates to the oracle's selfTest applied to the current
task description and the latest recorded execution output, returning the
oracle's verdict; on oracle failure it instead returns the minimal structural
fallback check (a current task exists and status is running); with no current
task it returns false. -/
theorem C9_selfTest_never_raises : ∀ (a : AgentBase)
    (oracle : String → String → Except String SelfTestOutcome),
    (∀ t res, a.currentTask = some t →
      oracle t.description (latestExecutedOutput a.executionLog) = Except.ok res →
      (childSelfTest a oracle).1 = res.passed) ∧
    (∀ t e, a.currentTask = some t →
      oracle t.description (latestExecutedOutput a.executionLog) = Except.error e →
      (childSelfTest a oracle).1 =
        (a.currentTask.isSome && (a.status == AgentStatus.running))) ∧
    (a.currentTask = none → (childSelfTest a oracle).1 = false) := by
  intro a oracle
  refine ⟨?_, ?_, ?_⟩
  · intro t res hct ho
    simp only [childSelfTest, hct, ho]
  · intro t e hct ho
    simp only [childSelfTest, hct, ho]
    simp [fallbackSelfTest, appendLog, hct]
  · intro hct
    simp only [childSelfTest, hct]

/-- C9 witness: a running worker holding a task, with an always-failing
self-test oracle, returns the structural fallback verdict. -/
theorem C9_witness :
    (childSelfTest stAgentEx stOracleErrEx).1 =
      (stAgentEx.currentTask.isSome && (stAgentEx.status == AgentStatus.running)) :=
  (C9_selfTest_never_raises stAgentEx stOracleErrEx).2.1 tEx "boom" rfl rfl

theorem find?_map_self (a : AgentTree) : ∀ (cs : List AgentTree),
    cs.any (fun c => c.base.id == a.base.id) = true →
    ((cs.map (fun c => if c.base.id == a.base.id then a else c)).find?
      (fun c => c.base.id == a.base.id)) = some a
  | [], h => by simp at h
  | c :: cs, h => by
      by_cases hc : (c.base.id == a.base.id) = true
      · rw [List.map_cons, if_pos hc]
        simp [List.find?_cons]
      · rw [Bool.not_eq_true] at hc
        rw [List.any_cons, hc, Bool.false_or] at h
        rw [List.map_cons, if_neg (by simp [hc])]
        simp only [List.find?_cons, hc]
        exact find?_map_self a cs h

theorem find?_map_ne (a : AgentTree) (cid : String) (hne : cid ≠ a.base.id) :
    ∀ (cs : List AgentTree),
    ((cs.map (fun c => if c.base.id == a.base.id then a else c)).find?
      (fun c => c.base.id == cid)) = cs.find? (fun c => c.base.id == cid)
  | [] => rfl
  | c :: cs => by
      by_cases hc : (c.base.id == a.base.id) = true
      · have hceq : c.base.id = a.base.id := by simpa using hc
        rw [List.map_cons, if_pos hc]
        have h1 : (a.base.id == cid) = false := by
          rw [beq_eq_false_iff_ne]
          exact Ne.symm hne
        have h2 : (c.base.id == cid) = false := by
          rw [beq_eq_false_iff_ne, hceq]
          exact Ne.symm hne
        simp only [List.find?_cons, h1, h2]
        exact find?_map_ne a cid hne cs
      · rw [List.map_cons, if_neg hc]
        simp only [List.find?_cons]
        cases hd : (c.base.id == cid) with
        | true => rfl
        | false => exact find?_map_ne a cid hne cs

theorem lookup_mapSet_self (cs : List AgentTree) (a : AgentTree) :
    lookupChild (mapSet cs a) a.base.id = some a := by
  unfold mapSet lookupChild
  split
  · next hany => exact find?_map_self a cs hany
  · next hany =>
      rw [List.find?_append]
      have hnone : cs.find? (fun c => c.base.id == a.base.id) = none := by
        rw [List.find?_eq_none]
        intro x hx hpx
        exact hany (List.any_eq_true.mpr ⟨x, hx, hpx⟩)
      rw [hnone]
      simp

theorem lookup_mapSet_ne (cs : List AgentTree) (a : AgentTree) (cid : String)
    (hne : cid ≠ a.base.id) :
    lookupChild (mapSet cs a) cid = lookupChild cs cid := by
  unfold mapSet lookupChild
  split
  · next hany => exact find?_map_ne a cid hne cs
  · next hany =>
      rw [List.find?_append]
      have h1 : ([a].find? (fun c => c.base.id == cid)) = none := by
        simp [List.find?_cons, Ne.symm hne]
      rw [h1]
      cases cs.find? (fun c => c.base.id == cid) <;> rfl

theorem childExecuteTask_preserves_id_config (a : AgentBase) (task : AgentTask)
    (perform : Except String String)
    (oracle : String → String → Except String SelfTestOutcome) :
    (childExecuteTask a task perform oracle).agent.id = a.id ∧
    (childExecuteTask a task perform oracle).agent.config = a.config := by
  cases perform with
  | error e =>
      simp only [childExecuteTask]
      split
      · next =>
          exact ⟨(childFailPath_spec _ task _).2.2.2.2.2.2.2.2.1,
            (childFailPath_spec _ task _).2.2.2.2.2.2.2.2.2.1⟩
      · next =>
          exact ⟨(childFailPath_spec _ task _).2.2.2.2.2.2.2.2.1,
            (childFailPath_spec _ task _).2.2.2.2.2.2.2.2.2.1⟩
  | ok llmOut =>
      simp only [childExecuteTask]
      split
      · next =>
          exact ⟨(childFailPath_spec _ task _).2.2.2.2.2.2.2.2.1,
            (childFailPath_spec _ task _).2.2.2.2.2.2.2.2.2.1⟩
      · next =>
          split
          · next =>
              exact ⟨(childSelfTest_preserves _ oracle).2.2.2.2.2.1,
                (childSelfTest_preserves _ oracle).2.2.2.2.2.2⟩
          · next =>
              have h := childFailPath_spec
                (childSelfTest
                  (appendLog (appendLog (appendLog
                    (appendLog { a with status := AgentStatus.running, currentTask := some task }
                      "task_start" ("Starting task: " ++ task.description))
                    "perform_task" ("Performing: " ++ effectiveInstruction task))
                    "task_executed" llmOut)
                    "self_test" "Running self-test with LLM...") oracle).2
                task "Self-test failed"
              constructor
              · have h9 := h.2.2.2.2.2.2.2.2.1
                rw [(childSelfTest_preserves _ oracle).2.2.2.2.2.1] at h9
                exact h9
              · have h10 := h.2.2.2.2.2.2.2.2.2.1
                rw [(childSelfTest_preserves _ oracle).2.2.2.2.2.2] at h10
                exact h10

theorem dispatchToAgent_preserves (a : AgentTree) (t : AgentTask) (o : DispatchOracle) :
    (dispatchToAgent a t o).2.base.id = a.base.id ∧
    (dispatchToAgent a t o).2.base.config = a.base.config :=
  childExecuteTask_preserves_id_config a.base (isolateTask t) o.perform o.selfTestOracle

/-- C3 (amended: the coordinator does not remove the old worker's entry from
the children map — it only adds the replacement under the new id, so the old,
now terminated, entry remains; see the counterexample): during the
coordinator's per-subtask loop, when the dispatched result is unsuccessful
and the worker's status is error_loop, the coordinator recreates the worker
(the old entry in the children map becomes the fully terminated old node and
stays there under its old id), adds the initialized replacement to the
children map under its new identity, re-dispatches the same subtask exactly
once to the replacement, and the retry's result overwrites the prior result
in the collected list. -/
theorem C3_recreate_retry_spec : ∀ (children : List AgentTree)
    (results : List TaskResult) (subTask : AgentTask) (o1 o2 : DispatchOracle)
    (pid fid1 fid2 : String) (w : AgentTree),
    findAvailableChild children = some w →
    (dispatchToAgent w subTask o1).1.success = false →
    (dispatchToAgent w subTask o1).2.base.status = AgentStatus.error_loop →
    fid2 ≠ w.base.id →
    (lookupChild (processSubTask children results subTask o1 o2 pid fid1 fid2).children
        w.base.id =
      some (terminateTree recreateReason (dispatchToAgent w subTask o1).2)) ∧
    (allTerminated (terminateTree recreateReason (dispatchToAgent w subTask o1).2)
      = true) ∧
    (lookupChild (processSubTask children results subTask o1 o2 pid fid1 fid2).children
        fid2 =
      some (dispatchToAgent (recreateReplacement (dispatchToAgent w subTask o1).2 fid2)
        subTask o2).2) ∧
    ((recreateReplacement (dispatchToAgent w subTask o1).2 fid2).base.id = fid2) ∧
    ((processSubTask children results subTask o1 o2 pid fid1 fid2).results =
      results ++ [(dispatchToAgent (recreateReplacement (dispatchToAgent w subTask o1).2
        fid2) subTask o2).1]) := by
  intro children results subTask o1 o2 pid fid1 fid2 w hfind hfail hloop hne
  have hwid : (dispatchToAgent w subTask o1).2.base.id = w.base.id :=
    (dispatchToAgent_preserves w subTask o1).1
  have hreplid : (dispatchToAgent (recreateReplacement (dispatchToAgent w subTask o1).2
      fid2) subTask o2).2.base.id = fid2 := by
    rw [(dispatchToAgent_preserves _ subTask o2).1]
    rfl
  simp only [processSubTask, recreate, hfind]
  split
  · next hcond =>
      refine ⟨?_, allTerminated_terminateTree _ _, ?_, rfl, ?_⟩
      · rw [lookup_mapSet_ne _ _ _ (by rw [hreplid]; exact Ne.symm hne)]
        rw [lookup_mapSet_ne _ _ _ (show w.base.id ≠ fid2 from Ne.symm hne)]
        have hoid : (terminateTree recreateReason
            (dispatchToAgent w subTask o1).2).base.id = w.base.id := by
          rw [terminateTree_base_id]
          exact hwid
        rw [← hoid]
        exact lookup_mapSet_self _ _
      · have h := lookup_mapSet_self
          (mapSet (mapSet (mapSet children (dispatchToAgent w subTask o1).2)
            (terminateTree recreateReason (dispatchToAgent w subTask o1).2))
            (recreateReplacement (dispatchToAgent w subTask o1).2 fid2))
          (dispatchToAgent (recreateReplacement (dispatchToAgent w subTask o1).2 fid2)
            subTask o2).2
        rw [hreplid] at h
        exact h
      · simp
  · next hcond =>
      exfalso
      apply hcond
      rw [hfail, hloop]
      rfl

/-- C3 counterexample: in a concrete run in which the dispatched subtask
fails and drives the worker "w" into error_loop, the coordinator recreates
the worker and adds the replacement under the new identity "n2", yet the old
node's entry is still present in the children map under "w" — the code calls
children.set(newAgent.id, newAgent) and never deletes the old entry, so the
claim's "the old node's entry no longer remains there" is false. -/
theorem C3_counterexample :
    lookupChild (processSubTask [wEx] [] tEx o1Ex o2Ex "p" "n1" "n2").children "w" ≠
      none := by
  intro hcontra
  exact Option.noConfusion hcontra

/-- C3 witness: in the same concrete run, the replacement sits in the
children map under "n2" in its post-retry state and the retry's result has
overwritten the original failure in the collected list. -/
theorem C3_witness :
    (processSubTask [wEx] [] tEx o1Ex o2Ex "p" "n1" "n2").results =
      [] ++ [(dispatchToAgent (recreateReplacement (dispatchToAgent wEx tEx o1Ex).2 "n2")
        tEx o2Ex).1] ∧
    lookupChild (processSubTask [wEx] [] tEx o1Ex o2Ex "p" "n1" "n2").children "n2" =
      some (dispatchToAgent (recreateReplacement (dispatchToAgent wEx tEx o1Ex).2 "n2")
        tEx o2Ex).2 := by
  have h := C3_recreate_retry_spec [wEx] [] tEx o1Ex o2Ex "p" "n1" "n2" wEx rfl rfl rfl
    (by decide)
  exact ⟨h.2.2.2.2, h.2.2.1⟩

/-- C10: addChild raises exactly when the parent's type is not root and the
parent already has at least one child (in the error case no updated state is
produced, so the children map is unchanged); on success the returned child
has type child, its parentId is the parent's id, its status is idle, the
parent's own fields are unchanged, and the child is present in the updated
children map under its own id. -/
theorem C10_addChild_spec : ∀ (p : AgentTree) (cfg : AgentConfig)
    (cfgId : Option String) (freshId : String),
    ((∃ e, addChild p cfg cfgId freshId = Except.error e) ↔
      (p.base.type ≠ AgentType.root ∧ 1 ≤ p.children.length)) ∧
    (∀ p2 c, addChild p cfg cfgId freshId = Except.ok (p2, c) →
      c.base.type = AgentType.child ∧
      c.base.parentId = some p.base.id ∧
      c.base.status = AgentStatus.idle ∧
      p2.base = p.base ∧
      p2.children = mapSet p.children c ∧
      lookupChild p2.children c.base.id = some c) := by
  intro p cfg cfgId fid
  unfold addChild
  split
  · next hcond =>
      rw [Bool.and_eq_true, Bool.not_eq_true', beq_eq_false_iff_ne,
        decide_eq_true_eq] at hcond
      constructor
      · exact ⟨fun _ => hcond, fun _ => ⟨_, rfl⟩⟩
      · intro p2 c heq
        exact Except.noConfusion heq
  · next hcond =>
      constructor
      · constructor
        · rintro ⟨e, he⟩
          exact Except.noConfusion he
        · intro hc
          exfalso
          apply hcond
          rw [Bool.and_eq_true, Bool.not_eq_true', beq_eq_false_iff_ne,
            decide_eq_true_eq]
          exact hc
      · intro p2 c heq
        injection heq with hpair
        injection hpair with hp2 hc
        subst hp2
        subst hc
        exact ⟨rfl, rfl, rfl, rfl, rfl, lookup_mapSet_self _ _⟩

/-- C10 witness: addChild on a non-root parent with one child errors exactly
as the condition states, and the successful addChild on the empty root yields
a child of type child under the root's id present in the map. -/
theorem C10_witness :
    ((∃ e, addChild busyPEx cfgEx none "x" = Except.error e) ↔
      (busyPEx.base.type ≠ AgentType.root ∧ 1 ≤ busyPEx.children.length)) ∧
    (addedPairEx.2.base.type = AgentType.child ∧
     addedPairEx.2.base.parentId = some rootPEx.base.id ∧
     lookupChild addedPairEx.1.children addedPairEx.2.base.id = some addedPairEx.2) := by
  refine ⟨(C10_addChild_spec busyPEx cfgEx none "x").1, ?_⟩
  have h := (C10_addChild_spec rootPEx cfgEx none "x").2 addedPairEx.1 addedPairEx.2 rfl
  exact ⟨h.1, h.2.1, h.2.2.2.2.2⟩
